import Mathlib

/-!
Verification of the pyircd session/command engine (`pyircd/user.py`).

The `User` class's command handlers are embedded as pure Lean functions
over an explicit server environment; the calls a handler makes to its
collaborators (connection, server registry, channels, other users) are
recorded as an ordered list of `Event`s, and a Python exception escaping
a handler is an `Except.error`.  Helper modules of the repository that are
not part of the given sources (`pyircd.ircutils`, `pyircd.numerics`,
`pyircd.errors`, the real `Channel` and server registry) are modelled from
the specification and marked as such in their doc comments.
-/

namespace Pyircd

/-! ## Python string primitives -/

/-- Python `str.split(sep)` on a character list: splits at every occurrence
of `sep`, keeping empty pieces, and yields one (possibly empty) piece even
for empty input. -/
def splitChars (sep : Char) : List Char → List (List Char)
  | [] => [[]]
  | c :: cs =>
    if c = sep then [] :: splitChars sep cs
    else
      match splitChars sep cs with
      | [] => [[c]]
      | h :: t => (c :: h) :: t

/-- Python `s.split(sep)` for a single-character separator. -/
def pySplit (s : String) (sep : Char) : List String :=
  (splitChars sep s.data).map (fun cs => ⟨cs⟩)

/-- Python `s.upper()` (ASCII case folding, as used on command verbs). -/
def pyUpper (s : String) : String := ⟨s.data.map Char.toUpper⟩

/-- Whether the string starts with the given character. -/
def startsWithChar (c : Char) (s : String) : Bool :=
  match s.data with
  | [] => false
  | d :: _ => decide (d = c)

/-- Python `s[1:]`. -/
def strTail (s : String) : String := ⟨s.data.drop 1⟩

/-- Join a list of strings with a separator. -/
def joinSep (sep : String) : List String → String
  | [] => ""
  | [x] => x
  | x :: y :: t => x ++ sep ++ joinSep sep (y :: t)

/-! ## Message codec, modelled from the spec (pyircd.ircutils is not under src/) -/

/-- Merge a colon-prefixed parameter and everything after it into one final
parameter with the colon stripped. -/
def mergeTrailing : List String → List String
  | [] => []
  | p :: ps =>
    if startsWithChar ':' p then [joinSep " " (strTail p :: ps)]
    else p :: mergeTrailing ps

/-- Modelled from the spec: `pyircd.ircutils.irc_msg_split` is not under
src/.  Per spec 4.1, the message is split on single spaces; when
`colonTrailing` is true a parameter beginning with a colon and everything
after it form one final parameter with the colon stripped.  The second
argument mirrors the boolean that `user.py` passes at the two call sites. -/
def irc_msg_split (msg : String) (colonTrailing : Bool := true) : List String :=
  match pySplit msg ' ' with
  | [] => []
  | verb :: params =>
    if colonTrailing then verb :: mergeTrailing params else verb :: params

/-- Modelled from the spec: `pyircd.ircutils.is_channel_name` is not under
src/.  A target names a channel when it begins with the channel sigil. -/
def is_channel_name (target : String) : Bool := startsWithChar '#' target

/-- Prefix the last element of a parameter list with a colon. -/
def colonizeLast : List String → List String
  | [] => []
  | [x] => [":" ++ x]
  | x :: y :: t => x :: colonizeLast (y :: t)

/-- Modelled from the spec: `pyircd.ircutils.build_irc_msg` is not under
src/.  Per spec 4.1 serialize, parameters are joined with single spaces,
the final parameter is colon-prefixed when it is multi-word, and a
non-empty source is prepended as a colon prefix. -/
def build_irc_msg (command : String) (params : List String)
    (finalParamMultiWord : Bool) (source : String) : String :=
  let ps := if finalParamMultiWord then colonizeLast params else params
  let body := joinSep " " (command :: ps)
  if source = "" then body else ":" ++ source ++ " " ++ body

/-! ## Numeric reply catalog, modelled from the spec (pyircd.numerics is not under src/) -/

/-- One piece of a numeric message template: literal text or a positional
placeholder. -/
inductive TItem
  | lit (s : String)
  | arg (i : Nat)
  deriving DecidableEq, Repr

/-- Python `template.format(args)` with positional placeholders. -/
def formatTemplate : List TItem → List String → String
  | [], _ => ""
  | .lit s :: t, args => s ++ formatTemplate t args
  | .arg i :: t, args => args.getD i "" ++ formatTemplate t args

/-- A numeric reply: code string, message template, and whether the final
parameter is a multi-word trailing parameter. -/
structure Numeric where
  num_str : String
  message : List TItem
  final_multi : Bool
  deriving DecidableEq, Repr

/-- Modelled from the spec: `pyircd.numerics` is not under src/; the
template text follows protocol convention, the shape (code, positional
template, trailing flag) follows spec 4.2. -/
def ERR_NEEDMOREPARAMS : Numeric :=
  ⟨"461", [.arg 0, .lit " :Not enough parameters"], false⟩

/-- Modelled from the spec: `pyircd.numerics` is not under src/. -/
def ERR_NOSUCHCHANNEL : Numeric :=
  ⟨"403", [.arg 0, .lit " :No such channel"], false⟩

/-- Modelled from the spec: `pyircd.numerics` is not under src/. -/
def RPL_WELCOME : Numeric :=
  ⟨"001", [.lit "Welcome to the Internet Relay Network ", .arg 0, .lit "!",
    .arg 1, .lit "@", .arg 2], false⟩

/-- Modelled from the spec: `pyircd.numerics` is not under src/. -/
def RPL_YOURHOST : Numeric :=
  ⟨"002", [.lit "Your host is ", .arg 0, .lit ", running version ", .arg 1], false⟩

/-- Modelled from the spec: `pyircd.numerics` is not under src/. -/
def RPL_CREATED : Numeric :=
  ⟨"003", [.lit "This server was created ", .arg 0], false⟩

/-- Modelled from the spec: `pyircd.numerics` is not under src/. -/
def RPL_MYINFO : Numeric :=
  ⟨"004", [.arg 0, .lit " ", .arg 1, .lit " ", .arg 2, .lit " ", .arg 3], false⟩

/-- Modelled from the spec: `pyircd.numerics` is not under src/. -/
def RPL_MOTDSTART : Numeric :=
  ⟨"375", [.lit "- ", .arg 0, .lit " Message of the day - "], false⟩

/-- Modelled from the spec: `pyircd.numerics` is not under src/. -/
def RPL_MOTD : Numeric :=
  ⟨"372", [.lit "- ", .arg 0], false⟩

/-- Modelled from the spec: `pyircd.numerics` is not under src/. -/
def RPL_ENDOFMOTD : Numeric :=
  ⟨"376", [.lit "End of MOTD command"], false⟩

/-! ## Sessions, environment, and observable events -/

/-- The transport capability: the session only reads the remote address
from it (spec section 1; `user.py` line 43 reads `connection.address[0]`). -/
structure Connection where
  address : String × Nat
  deriving DecidableEq, Repr

/-- A registered session, as built by `User.__init__` (`user.py` 26-48):
identity fields only; the dispatch table, server and connection are
represented externally. -/
structure User where
  nick : String
  username : String
  real_name : String
  host : String
  deriving DecidableEq, Repr

/-- Python `user.hostmask` (`user.py` 82-84). -/
def User.hostmask (u : User) : String := u.username ++ "@" ++ u.host

/-- Python `user.identifier` (`user.py` 86-88). -/
def User.identifier (u : User) : String := u.nick ++ "!" ++ u.username ++ "@" ++ u.host

/-- Outcome of the registry's `join_user_to_channel` for a given channel:
success, a KeyError, a BadKeyError or a ChannelFullError (the error classes
come from `pyircd.errors`, raised by the registry as in
`tests/mock_server.py` 28-34). -/
inductive JoinRes
  | ok
  | keyErr
  | badKey
  | full
  deriving DecidableEq, Repr

/-- The server registry and configuration as the session observes them:
which channel names and nicks resolve (a failed dict lookup raises
KeyError), and what `join_user_to_channel` does per channel. -/
structure ServerEnv where
  hostname : String
  version : String
  motd : String
  knownChannels : List String
  knownUsers : List String
  joinRes : String → JoinRes

/-- A Python exception escaping or crossing a handler. -/
inductive PyErr
  | keyError
  | indexError
  | valueError
  | badKeyError
  | channelFullError
  deriving DecidableEq, Repr

/-- One observable call a handler makes to a collaborator. -/
inductive Event
  | sendRaw (line : String)
  | closeConn
  | joinUserToChannel (userNick : String) (channel : String)
  | quitUser (userNick : String) (reason : Option String)
  | sendWhois (target : String) (asker : String)
  | chanMsg (channel : String) (sourceNick : String) (text : String)
  | chanPart (channel : String) (userNick : String) (reason : Option String)
  | chanSendTopic (channel : String)
  | chanTrySetTopic (channel : String) (topic : String)
  | chanSendWho (channel : String)
  | userMsg (targetNick : String) (target : String) (text : String) (sourceId : String)
  | sendChannelList (channel : String)
  | sendIsupport
  deriving DecidableEq, Repr

/-! ## Output helpers (`user.py` 201-220) -/

/-- `User.send_cmd` (`user.py` 210-217): a falsy source is replaced by the
server hostname, then the message is serialized and sent on the session's
connection. -/
def send_cmd (env : ServerEnv) (command : String) (params : List String)
    (finalParamMultiWord : Bool) (source : Option String) : Event :=
  let src := match source with
    | none => env.hostname
    | some s => if s = "" then env.hostname else s
  .sendRaw (build_irc_msg command params finalParamMultiWord src)

/-- `User.send_numeric` (`user.py` 201-208): the session's nick is
prepended to the positionally substituted template, split without trailing
handling, and sent via `send_cmd`. -/
def send_numeric (env : ServerEnv) (u : User) (numeric : Numeric)
    (sparams : List String) (source : Option String := none) : Event :=
  send_cmd env numeric.num_str
    (u.nick :: irc_msg_split (formatTemplate numeric.message sparams) false)
    numeric.final_multi source

/-! ## Command handlers (`user.py` 90-199) -/

/-- The `min_params` decorator (`user.py` 6-22): with fewer parts than the
minimum, reply ERR_NEEDMOREPARAMS carrying `parts[0]` and skip the wrapped
handler. -/
def min_params (numParams : Nat)
    (func : ServerEnv → User → String → Except PyErr (List Event)) :
    ServerEnv → User → String → Except PyErr (List Event) :=
  fun env u msg =>
    let parts := irc_msg_split msg
    if parts.length < numParams then
      match parts.head? with
      | none => .error .indexError
      | some p0 => .ok [send_numeric env u ERR_NEEDMOREPARAMS [p0]]
    else func env u msg

/-- Processing of one PRIVMSG target (`user.py` 100-109): a channel-shaped
target goes to the channel's `msg`, another nick to `User.msg`; a KeyError
from either registry lookup is caught and discarded (the `TODO` branch). -/
def privmsgTarget (env : ServerEnv) (u : User) (text : String) (target : String) :
    List Event :=
  if is_channel_name target then
    if env.knownChannels.contains target then [.chanMsg target u.nick text] else []
  else
    if env.knownUsers.contains target then
      [.userMsg target target text u.identifier]
    else []

/-- Body of `handle_privmsg` (`user.py` 96-109), guarded by `min_params 3`. -/
def handle_privmsg_body (env : ServerEnv) (u : User) (msg : String) :
    Except PyErr (List Event) :=
  match irc_msg_split msg with
  | _cmd :: target_str :: message :: _ =>
    .ok ((pySplit target_str ',').flatMap (privmsgTarget env u message))
  | _ => .error .valueError

/-- `handle_privmsg` (`user.py` 95-109). -/
def handle_privmsg : ServerEnv → User → String → Except PyErr (List Event) :=
  min_params 3 handle_privmsg_body

/-- The registry join call in `handle_join` (`user.py` 119-123): only
KeyError is caught; BadKeyError and ChannelFullError escape the handler.
No key is passed (`user.py` 120 calls `join_user_to_channel(self, channel)`). -/
def joinAttempt (env : ServerEnv) (u : User) (channel : String) :
    Except PyErr (List Event) :=
  match env.joinRes channel with
  | .ok => .ok [.joinUserToChannel u.nick channel]
  | .keyErr => .ok []
  | .badKey => .error .badKeyError
  | .full => .error .channelFullError

/-- Body of `handle_join` (`user.py` 112-123), guarded by `min_params 2`:
the whole second token is one channel name (no comma split); with more
than two parts the key is read from `parts[3]`, an IndexError when that
index does not exist. -/
def handle_join_body (env : ServerEnv) (u : User) (msg : String) :
    Except PyErr (List Event) :=
  let parts := irc_msg_split msg
  match parts with
  | _cmd :: channel :: _ =>
    if parts.length > 2 then
      match parts.get? 3 with
      | none => .error .indexError
      | some _key => joinAttempt env u channel
    else joinAttempt env u channel
  | _ => .error .valueError

/-- `handle_join` (`user.py` 111-123). -/
def handle_join : ServerEnv → User → String → Except PyErr (List Event) :=
  min_params 2 handle_join_body

/-- The channel part call in `handle_part` (`user.py` 135-139): an unknown
channel raises KeyError from `get_channel`, which is caught and ignored. -/
def partAttempt (env : ServerEnv) (u : User) (channel : String)
    (reason : Option String) : Except PyErr (List Event) :=
  if env.knownChannels.contains channel then
    .ok [.chanPart channel u.nick reason]
  else .ok []

/-- Body of `handle_part` (`user.py` 126-139), guarded by `min_params 2`:
exactly three parts carry a reason, exactly two none; any other shape is a
ValueError from the tuple unpacking. -/
def handle_part_body (env : ServerEnv) (u : User) (msg : String) :
    Except PyErr (List Event) :=
  match irc_msg_split msg with
  | [_cmd, channel, reason] => partAttempt env u channel (some reason)
  | [_cmd, channel] => partAttempt env u channel none
  | _ => .error .valueError

/-- `handle_part` (`user.py` 125-139). -/
def handle_part : ServerEnv → User → String → Except PyErr (List Event) :=
  min_params 2 handle_part_body

/-- `handle_quit` (`user.py` 141-149): `quit_user` with the reason when the
message has exactly two parts, without one otherwise, then close the
connection. -/
def handle_quit (_env : ServerEnv) (u : User) (msg : String) :
    Except PyErr (List Event) :=
  match irc_msg_split msg with
  | [_cmd, reason] => .ok [.quitUser u.nick (some reason), .closeConn]
  | _ => .ok [.quitUser u.nick none, .closeConn]

/-- `handle_names` (`user.py` 151-160): with exactly two parts, list each
comma-separated channel; otherwise list every channel of the server. -/
def handle_names (env : ServerEnv) (_u : User) (msg : String) :
    Except PyErr (List Event) :=
  match irc_msg_split msg with
  | [_cmd, channels] => .ok ((pySplit channels ',').map .sendChannelList)
  | _ => .ok (env.knownChannels.map .sendChannelList)

/-- Body of `handle_topic` (`user.py` 163-178), guarded by `min_params 2`:
an unknown channel's KeyError is caught and answered with
ERR_NOSUCHCHANNEL; otherwise two parts ask for the topic and a third sets
it. -/
def handle_topic_body (env : ServerEnv) (u : User) (msg : String) :
    Except PyErr (List Event) :=
  match irc_msg_split msg with
  | _cmd :: channel :: rest =>
    if env.knownChannels.contains channel then
      match rest with
      | [] => .ok [.chanSendTopic channel]
      | newTopic :: _ => .ok [.chanTrySetTopic channel newTopic]
    else .ok [send_numeric env u ERR_NOSUCHCHANNEL [channel]]
  | _ => .error .valueError

/-- `handle_topic` (`user.py` 162-178). -/
def handle_topic : ServerEnv → User → String → Except PyErr (List Event) :=
  min_params 2 handle_topic_body

/-- Body of `handle_who` (`user.py` 185-189), guarded by `min_params 2`:
no try/except here, so an unknown channel's KeyError escapes. -/
def handle_who_body (env : ServerEnv) (_u : User) (msg : String) :
    Except PyErr (List Event) :=
  match irc_msg_split msg with
  | _cmd :: channel :: _ =>
    if env.knownChannels.contains channel then .ok [.chanSendWho channel]
    else .error .keyError
  | _ => .error .valueError

/-- `handle_who` (`user.py` 184-189). -/
def handle_who : ServerEnv → User → String → Except PyErr (List Event) :=
  min_params 2 handle_who_body

/-- Body of `handle_whois` (`user.py` 192-199), guarded by `min_params 2`:
each comma-separated target is delegated to the server. -/
def handle_whois_body (_env : ServerEnv) (u : User) (msg : String) :
    Except PyErr (List Event) :=
  match irc_msg_split msg with
  | _cmd :: targets :: _ =>
    .ok ((pySplit targets ',').map (fun t => .sendWhois t u.nick))
  | _ => .ok []

/-- `handle_whois` (`user.py` 191-199). -/
def handle_whois : ServerEnv → User → String → Except PyErr (List Event) :=
  min_params 2 handle_whois_body

/-- `handle_mode` (`user.py` 180-182): defined but absent from the
dispatch table, and a no-op in any case. -/
def handle_mode (_env : ServerEnv) (_u : User) (_msg : String) :
    Except PyErr (List Event) :=
  .ok []

/-! ## Dispatch (`user.py` 27-36, 90-93) -/

/-- The dispatch table built in `User.__init__` (`user.py` 27-36), as a
lookup from the upper-cased verb. -/
def lookupHandler (command : String) :
    Option (ServerEnv → User → String → Except PyErr (List Event)) :=
  if command = "PRIVMSG" then some handle_privmsg
  else if command = "JOIN" then some handle_join
  else if command = "PART" then some handle_part
  else if command = "QUIT" then some handle_quit
  else if command = "NAMES" then some handle_names
  else if command = "TOPIC" then some handle_topic
  else if command = "WHO" then some handle_who
  else if command = "WHOIS" then some handle_whois
  else none

/-- The verb `handle_cmd` dispatches on: first space-separated token,
upper-cased (`user.py` 91). -/
def cmdVerb (msg : String) : String := pyUpper ((pySplit msg ' ').headD "")

/-- `handle_cmd` (`user.py` 90-93): look the verb up in the dispatch table
and run the handler; an unknown verb does nothing. -/
def handle_cmd (env : ServerEnv) (u : User) (msg : String) :
    Except PyErr (List Event) :=
  match lookupHandler (cmdVerb msg) with
  | some h => h env u msg
  | none => .ok []

/-! ## Session construction (`user.py` 26-80, 222-227) -/

/-- Python `str.splitlines` as used on the MOTD (`user.py` 225): split on
newlines, dropping a final empty piece. -/
def splitLines (s : String) : List String :=
  let ls := pySplit s '\n'
  if ls.getLast? = some "" then ls.dropLast else ls

/-- `User.__init__`'s field assignments (`user.py` 38-43): the `host`
argument is never stored; `self.host` is read from
`connection.address[0]`. -/
def mkUser (nick username real_name host : String) (connection : Connection) :
    User :=
  { nick := nick, username := username, real_name := real_name,
    host := connection.address.1 }

/-- `send_opening_numerics` (`user.py` 50-80). -/
def send_opening_numerics (env : ServerEnv) (u : User) : List Event :=
  [ send_numeric env u RPL_WELCOME [u.nick, u.username, u.host],
    send_numeric env u RPL_YOURHOST [env.hostname, env.version],
    send_numeric env u RPL_CREATED ["in the past."],
    send_numeric env u RPL_MYINFO [env.hostname, env.version, "", ""] ]

/-- `send_motd` (`user.py` 222-227). -/
def send_motd (env : ServerEnv) (u : User) : List Event :=
  send_numeric env u RPL_MOTDSTART [env.hostname]
    :: ((splitLines env.motd).map (fun line => send_numeric env u RPL_MOTD [line])
      ++ [send_numeric env u RPL_ENDOFMOTD []])

/-- `User.__init__` (`user.py` 26-48) as observed from outside: the
constructed session and the output produced during construction (opening
numerics, MOTD, then the server's `send_isupport`). -/
def userInit (env : ServerEnv) (nick username real_name host : String)
    (connection : Connection) : User × List Event :=
  let u := mkUser nick username real_name host connection
  (u, send_opening_numerics env u ++ send_motd env u ++ [Event.sendIsupport])

/-! ## Membership effect of parting, modelled from the spec -/

/-- Modelled from the spec: the real `Channel.part` is not under src/ (only
the test mock `tests/mock_channel.py` is).  Per spec 4.4 and the testable
property in spec section 8, parting removes the session from the member
list and, for a session that never joined, produces no error and leaves
membership unchanged. -/
def Channel_part (members : List String) (userNick : String) : List String :=
  members.filter (fun m => m ≠ userNick)

/-! ## Fixtures for concrete evaluations -/

/-- A sample session. -/
def sampleUser : User :=
  { nick := "nick1", username := "user1", real_name := "User One",
    host := "localhost" }

/-- A sample environment: one known channel and one known nick, every join
succeeding. -/
def sampleEnv : ServerEnv :=
  { hostname := "example.com", version := "test-1", motd := "hello",
    knownChannels := ["#chan"], knownUsers := ["nick1"],
    joinRes := fun _ => .ok }

/-- An environment in which nothing resolves and every join raises
BadKeyError (the `#wrongkey` behavior of `tests/mock_server.py` 28-30). -/
def badKeyEnv : ServerEnv :=
  { hostname := "example.com", version := "test-1", motd := "hello",
    knownChannels := [], knownUsers := [],
    joinRes := fun _ => .badKey }

/-- An environment in which no channel resolves, one nick does, and joins
succeed. -/
def emptyEnv : ServerEnv :=
  { hostname := "example.com", version := "test-1", motd := "hello",
    knownChannels := [], knownUsers := ["nick1"],
    joinRes := fun _ => .ok }

/-- The minimum parameter count each dispatched handler declares through
its `min_params` decorator (`user.py` 95, 111, 125, 162, 184, 191);
`QUIT` and `NAMES` declare none. -/
def minParamsOf (v : String) : Option Nat :=
  if v = "PRIVMSG" then some 3
  else if v = "JOIN" then some 2
  else if v = "PART" then some 2
  else if v = "TOPIC" then some 2
  else if v = "WHO" then some 2
  else if v = "WHOIS" then some 2
  else none

/-- The reason `handle_quit` passes to `quit_user` (`user.py` 143-148):
the second part when the message has exactly two parts, nothing
otherwise. -/
def quitReason (msg : String) : Option String :=
  match irc_msg_split msg with
  | [_cmd, reason] => some reason
  | _ => none

/-- The eight verbs of the dispatch table (`user.py` 27-36). -/
def acceptedVerbs : List String :=
  ["PRIVMSG", "JOIN", "PART", "QUIT", "NAMES", "TOPIC", "WHO", "WHOIS"]

/-! ## Basic shape lemmas -/

theorem splitChars_ne_nil (sep : Char) (l : List Char) : splitChars sep l ≠ [] := by
  induction l with
  | nil => simp [splitChars]
  | cons c cs ih =>
    simp only [splitChars]
    split
    · simp
    · split <;> simp

theorem pySplit_ne_nil (s : String) (sep : Char) : pySplit s sep ≠ [] := by
  unfold pySplit
  simp [splitChars_ne_nil]

/-- An IRC message always splits into at least its first token. -/
theorem irc_msg_split_cons (msg : String) (b : Bool) :
    ∃ ps, irc_msg_split msg b = (pySplit msg ' ').headD "" :: ps := by
  unfold irc_msg_split
  cases h : pySplit msg ' ' with
  | nil => exact absurd h (pySplit_ne_nil msg ' ')
  | cons v ps => cases b <;> simp

/-- The `min_params` guard on a too-short message replies with exactly one
ERR_NEEDMOREPARAMS carrying the received first token and never calls the
wrapped handler. -/
theorem min_params_short (n : Nat)
    (f : ServerEnv → User → String → Except PyErr (List Event))
    (env : ServerEnv) (u : User) (msg : String)
    (h : (irc_msg_split msg).length < n) :
    min_params n f env u msg =
      .ok [send_numeric env u ERR_NEEDMOREPARAMS [(irc_msg_split msg).headD ""]] := by
  obtain ⟨ps, hps⟩ := irc_msg_split_cons msg true
  unfold min_params
  simp only [hps] at h ⊢
  simp only [List.length_cons] at h
  simp [h]

/-! ## Claim theorems -/

/-- C1: for every dispatched command whose handler declares a minimum
parameter count (PRIVMSG 3; JOIN, PART, TOPIC, WHO, WHOIS 2), a message
with fewer tokens than that minimum makes the handler body unreachable and
the session is sent exactly one ERR_NEEDMOREPARAMS numeric carrying the
received command name: the whole effect of dispatch is that single reply
line, with no server or channel call. -/
theorem needmoreparams_guard (env : ServerEnv) (u : User) (msg : String) (m : Nat)
    (hm : minParamsOf (cmdVerb msg) = some m)
    (hlen : (irc_msg_split msg).length < m) :
    handle_cmd env u msg =
      .ok [send_numeric env u ERR_NEEDMOREPARAMS [(irc_msg_split msg).headD ""]] := by
  unfold minParamsOf at hm
  unfold handle_cmd
  split_ifs at hm with h1 h2 h3 h4 h5 h6
  · injection hm with hm; subst hm; rw [h1]
    exact min_params_short 3 _ env u msg hlen
  · injection hm with hm; subst hm; rw [h2]
    exact min_params_short 2 _ env u msg hlen
  · injection hm with hm; subst hm; rw [h3]
    exact min_params_short 2 _ env u msg hlen
  · injection hm with hm; subst hm; rw [h4]
    exact min_params_short 2 _ env u msg hlen
  · injection hm with hm; subst hm; rw [h5]
    exact min_params_short 2 _ env u msg hlen
  · injection hm with hm; subst hm; rw [h6]
    exact min_params_short 2 _ env u msg hlen

/-- Witness for C1: a two-token `privmsg x` yields exactly the
ERR_NEEDMOREPARAMS reply carrying the received verb. -/
theorem needmoreparams_guard_witness :
    handle_cmd sampleEnv sampleUser "privmsg x" =
      .ok [send_numeric sampleEnv sampleUser ERR_NEEDMOREPARAMS
        [(irc_msg_split "privmsg x").headD ""]] :=
  needmoreparams_guard sampleEnv sampleUser "privmsg x" 3 (by decide) (by decide)

/-- C2 (code bug): at the failing input `PRIVMSG #a,nick1 hello` with `#a`
unknown and `nick1` known, the code delivers to `nick1` but sends the
sender no numeric at all — the KeyError from the channel lookup is caught
by the bare `except KeyError: pass` (`user.py` 107-109, against its own
TODO comment), so no ERR_NOSUCHCHANNEL or ERR_NOSUCHNICK is emitted. -/
theorem privmsg_lookup_failure_swallowed :
    handle_cmd emptyEnv sampleUser "PRIVMSG #a,nick1 hello" =
      .ok [Event.userMsg "nick1" "nick1" "hello" sampleUser.identifier] := rfl

/-- C3 (code bug): at the failing input `JOIN #wrongkey` with the registry
join raising BadKeyError, the error escapes `handle_join` uncaught (only
KeyError is caught, `user.py` 121-123) and no ERR_BADCHANNELKEY reply is
produced; likewise ChannelFullError would escape without
ERR_CHANNELISFULL. -/
theorem join_bad_key_uncaught :
    handle_cmd badKeyEnv sampleUser "JOIN #wrongkey" = .error .badKeyError := rfl

/-- C4: a PRIVMSG with at least three tokens processes each comma-separated
target independently — dispatch returns exactly the concatenation of each
target's own events, so any resolvable nick target receives its message
and any resolvable channel target is broadcast to, regardless of failures
on the other targets. -/
theorem privmsg_targets_independent (env : ServerEnv) (u : User) (msg : String)
    (cmd target_str text : String) (rest : List String)
    (hv : cmdVerb msg = "PRIVMSG")
    (hp : irc_msg_split msg = cmd :: target_str :: text :: rest) :
    handle_cmd env u msg =
      .ok ((pySplit target_str ',').flatMap (privmsgTarget env u text)) ∧
    (∀ t ∈ pySplit target_str ',', is_channel_name t = false →
      env.knownUsers.contains t = true →
      Event.userMsg t t text u.identifier ∈
        (pySplit target_str ',').flatMap (privmsgTarget env u text)) ∧
    (∀ t ∈ pySplit target_str ',', is_channel_name t = true →
      env.knownChannels.contains t = true →
      Event.chanMsg t u.nick text ∈
        (pySplit target_str ',').flatMap (privmsgTarget env u text)) := by
  refine ⟨?_, ?_, ?_⟩
  · unfold handle_cmd
    rw [hv]
    show handle_privmsg env u msg = _
    unfold handle_privmsg min_params handle_privmsg_body
    simp only [hp, List.length_cons]
    have hlt : ¬ (rest.length + 1 + 1 + 1 < 3) := by omega
    simp [hlt]
  · intro t ht hch hu
    have hu2 : t ∈ env.knownUsers := by simpa using hu
    exact List.mem_flatMap.mpr ⟨t, ht, by simp [privmsgTarget, hch, hu2]⟩
  · intro t ht hch hc
    have hc2 : t ∈ env.knownChannels := by simpa using hc
    exact List.mem_flatMap.mpr ⟨t, ht, by simp [privmsgTarget, hch, hc2]⟩

/-- Witness for C4: with `#a` unknown and `nick1` known,
`PRIVMSG #a,nick1 hello` still delivers to `nick1`. -/
theorem privmsg_targets_independent_witness :
    handle_cmd emptyEnv sampleUser "PRIVMSG #a,nick1 hello" =
      .ok [Event.userMsg "nick1" "nick1" "hello" sampleUser.identifier] := by
  have h := (privmsg_targets_independent emptyEnv sampleUser "PRIVMSG #a,nick1 hello"
    "PRIVMSG" "#a,nick1" "hello" [] (by decide) (by decide)).1
  rw [h]
  rfl

/-- C5: every QUIT message invokes the registry's quit operation exactly
once — with the supplied reason when the message has a reason token and
none otherwise — and then closes the connection exactly once: dispatch
produces exactly the two events quit-then-close. -/
theorem quit_closes_once (env : ServerEnv) (u : User) (msg : String)
    (hv : cmdVerb msg = "QUIT") :
    handle_cmd env u msg =
      .ok [Event.quitUser u.nick (quitReason msg), Event.closeConn] := by
  unfold handle_cmd
  rw [hv]
  show handle_quit env u msg = _
  unfold handle_quit quitReason
  rcases hs : irc_msg_split msg with _ | ⟨a, _ | ⟨b, _ | ⟨c, t⟩⟩⟩ <;> simp

/-- Witness for C5: `QUIT :bye` quits once with reason and closes once. -/
theorem quit_closes_once_witness :
    handle_cmd sampleEnv sampleUser "QUIT :bye" =
      .ok [Event.quitUser sampleUser.nick (quitReason "QUIT :bye"), Event.closeConn] :=
  quit_closes_once sampleEnv sampleUser "QUIT :bye" (by decide)

/-- C6 (as amended): for a PART message that splits into exactly two or
three tokens, a PART naming an unknown channel is a complete no-op (no
error, no reply, no call at all), and a PART naming a known channel the
session never joined escapes no error, sends no reply, and the part
operation leaves the membership of a channel not containing the session
unchanged (spec-modelled `Channel.part`).  The restriction to two or
three tokens is forced: see `part_extra_tokens_error`. -/
theorem part_unknown_or_unjoined_noop (env : ServerEnv) (u : User) (msg : String)
    (c0 ch : String)
    (hv : cmdVerb msg = "PART")
    (hp : irc_msg_split msg = [c0, ch] ∨ ∃ r, irc_msg_split msg = [c0, ch, r]) :
    (env.knownChannels.contains ch = false → handle_cmd env u msg = .ok []) ∧
    (env.knownChannels.contains ch = true →
      handle_cmd env u msg =
        .ok [Event.chanPart ch u.nick ((irc_msg_split msg).get? 2)] ∧
      (∀ members : List String, u.nick ∉ members →
        Channel_part members u.nick = members)) := by
  have hd : handle_cmd env u msg = handle_part env u msg := by
    unfold handle_cmd
    rw [hv]
    rfl
  have hpart : ∀ members : List String, u.nick ∉ members →
      Channel_part members u.nick = members := by
    intro members hmem
    unfold Channel_part
    refine List.filter_eq_self.mpr ?_
    intro m hm
    simp only [ne_eq, decide_eq_true_eq]
    intro he
    exact hmem (he ▸ hm)
  rcases hp with hp | ⟨r, hp⟩
  · constructor
    · intro hc
      have hcm : ch ∉ env.knownChannels := by simpa using hc
      rw [hd]
      unfold handle_part min_params handle_part_body partAttempt
      simp [hp, hcm]
    · intro hc
      have hcm : ch ∈ env.knownChannels := by simpa using hc
      refine ⟨?_, hpart⟩
      rw [hd]
      unfold handle_part min_params handle_part_body partAttempt
      simp [hp, hcm]
  · constructor
    · intro hc
      have hcm : ch ∉ env.knownChannels := by simpa using hc
      rw [hd]
      unfold handle_part min_params handle_part_body partAttempt
      simp [hp, hcm]
    · intro hc
      have hcm : ch ∈ env.knownChannels := by simpa using hc
      refine ⟨?_, hpart⟩
      rw [hd]
      unfold handle_part min_params handle_part_body partAttempt
      simp [hp, hcm]

/-- Witness for C6: `PART #ghost` against a registry without `#ghost`
produces nothing at all. -/
theorem part_unknown_or_unjoined_noop_witness :
    handle_cmd emptyEnv sampleUser "PART #ghost" = .ok [] :=
  (part_unknown_or_unjoined_noop emptyEnv sampleUser "PART #ghost" "PART" "#ghost"
    (by decide) (Or.inl (by decide))).1 (by decide)

/-- Counterexample for C6 as originally stated: a four-token PART such as
`PART #ghost a b` (a multi-word reason without the colon) passes the
min-params guard but crashes in the exact tuple unpacking
`cmd, channel = parts` (`user.py` 132) with an uncaught ValueError even
though the named channel is unknown — an error escapes the handler, so
the command is not a no-op on every PART of at least two tokens. -/
theorem part_extra_tokens_error :
    handle_cmd emptyEnv sampleUser "PART #ghost a b" = .error .valueError ∧
    handle_cmd emptyEnv sampleUser "PART #ghost a b" ≠ .ok [] :=
  ⟨rfl, fun h =>
    nomatch (show Except.error PyErr.valueError = Except.ok [] from h)⟩

/-- C7: a message whose upper-cased first token is outside the eight-entry
dispatch table (MODE included) runs no handler and produces nothing, while
any case variant of the eight accepted verbs is dispatched to its own
handler. -/
theorem dispatch_closed (env : ServerEnv) (u : User) (msg : String) :
    (cmdVerb msg ∉ acceptedVerbs → handle_cmd env u msg = .ok []) ∧
    (cmdVerb msg = "PRIVMSG" → handle_cmd env u msg = handle_privmsg env u msg) ∧
    (cmdVerb msg = "JOIN" → handle_cmd env u msg = handle_join env u msg) ∧
    (cmdVerb msg = "PART" → handle_cmd env u msg = handle_part env u msg) ∧
    (cmdVerb msg = "QUIT" → handle_cmd env u msg = handle_quit env u msg) ∧
    (cmdVerb msg = "NAMES" → handle_cmd env u msg = handle_names env u msg) ∧
    (cmdVerb msg = "TOPIC" → handle_cmd env u msg = handle_topic env u msg) ∧
    (cmdVerb msg = "WHO" → handle_cmd env u msg = handle_who env u msg) ∧
    (cmdVerb msg = "WHOIS" → handle_cmd env u msg = handle_whois env u msg) ∧
    (cmdVerb msg = "MODE" → handle_cmd env u msg = .ok []) := by
  refine ⟨?_, ?_, ?_, ?_, ?_, ?_, ?_, ?_, ?_, ?_⟩
  · intro h
    simp only [acceptedVerbs, List.mem_cons, List.not_mem_nil, or_false, not_or] at h
    obtain ⟨n1, n2, n3, n4, n5, n6, n7, n8⟩ := h
    unfold handle_cmd lookupHandler
    rw [if_neg n1, if_neg n2, if_neg n3, if_neg n4, if_neg n5, if_neg n6,
      if_neg n7, if_neg n8]
  all_goals intro h
  all_goals rw [show handle_cmd env u msg =
    (match lookupHandler (cmdVerb msg) with
      | some f => f env u msg
      | none => Except.ok []) from rfl, h]
  all_goals rfl

/-- Witness for C7: `MODE` produces nothing and a case variant of JOIN is
dispatched to `handle_join`. -/
theorem dispatch_closed_witness :
    handle_cmd sampleEnv sampleUser "MODE #chan +o" = .ok [] ∧
    handle_cmd sampleEnv sampleUser "jOiN #chan" =
      handle_join sampleEnv sampleUser "jOiN #chan" :=
  ⟨(dispatch_closed sampleEnv sampleUser "MODE #chan +o").2.2.2.2.2.2.2.2.2 (by decide),
   (dispatch_closed sampleEnv sampleUser "jOiN #chan").2.2.1 (by decide)⟩

/-- C8: every numeric reply sent with no explicit source is one raw line
whose source prefix is the server hostname, whose first parameter after
the code is the session's own nick, and whose remaining parameters come
from the numeric's template substituted positionally with the supplied
arguments. -/
theorem numeric_reply_format (env : ServerEnv) (u : User) (numeric : Numeric)
    (sparams : List String) (h : env.hostname ≠ "") :
    send_numeric env u numeric sparams none =
      .sendRaw (":" ++ env.hostname ++ " " ++
        joinSep " " (numeric.num_str ::
          (if numeric.final_multi then
            colonizeLast
              (u.nick :: irc_msg_split (formatTemplate numeric.message sparams) false)
          else
            u.nick :: irc_msg_split (formatTemplate numeric.message sparams) false))) := by
  unfold send_numeric send_cmd build_irc_msg
  simp [h]

/-- Witness for C8: the ERR_NEEDMOREPARAMS reply for `JOIN` in the sample
environment. -/
theorem numeric_reply_format_witness :
    send_numeric sampleEnv sampleUser ERR_NEEDMOREPARAMS ["JOIN"] none =
      .sendRaw (":" ++ sampleEnv.hostname ++ " " ++
        joinSep " " (ERR_NEEDMOREPARAMS.num_str ::
          (if ERR_NEEDMOREPARAMS.final_multi then
            colonizeLast (sampleUser.nick ::
              irc_msg_split (formatTemplate ERR_NEEDMOREPARAMS.message ["JOIN"]) false)
          else
            sampleUser.nick ::
              irc_msg_split (formatTemplate ERR_NEEDMOREPARAMS.message ["JOIN"]) false))) :=
  numeric_reply_format sampleEnv sampleUser ERR_NEEDMOREPARAMS ["JOIN"] (by decide)

/-- C9: a JOIN message of exactly three tokens reaches the key-reading
branch (taken whenever there are more than two tokens) and reads the
parameter at index 3, which does not exist, so the access raises
IndexError and the registry join is never reached; with more than three
tokens the whole outcome is likewise decided by the index-3 access before
any join. -/
theorem join_key_index_bug (env : ServerEnv) (u : User) (msg : String)
    (hv : cmdVerb msg = "JOIN") :
    ((irc_msg_split msg).length = 3 → handle_cmd env u msg = .error .indexError) ∧
    (2 < (irc_msg_split msg).length →
      handle_cmd env u msg =
        match (irc_msg_split msg).get? 3 with
        | none => .error .indexError
        | some _ => joinAttempt env u ((irc_msg_split msg).getD 1 "")) := by
  have hd : handle_cmd env u msg = handle_join env u msg := by
    unfold handle_cmd
    rw [hv]
    rfl
  constructor
  · intro h3
    obtain ⟨a, b, c, hs⟩ := List.length_eq_three.mp h3
    rw [hd]
    unfold handle_join min_params handle_join_body
    simp [hs]
  · intro h2
    rcases hs : irc_msg_split msg with _ | ⟨a, _ | ⟨b, _ | ⟨c, t⟩⟩⟩ <;>
      rw [hs] at h2 <;> simp at h2
    rw [hd]
    unfold handle_join min_params handle_join_body
    simp only [hs, List.length_cons, List.get?]
    cases t with
    | nil => simp
    | cons d t2 => simp

/-- Witness for C9: `JOIN #chan thekey` (verb, channel, one key) raises
IndexError and never reaches the registry join. -/
theorem join_key_index_bug_witness :
    handle_cmd sampleEnv sampleUser "JOIN #chan thekey" = .error .indexError :=
  (join_key_index_bug sampleEnv sampleUser "JOIN #chan thekey" (by decide)).1 (by decide)

/-- C10: the host argument of the constructor never influences behaviour —
the stored host always comes from the connection's remote address, so two
sessions built with identical arguments except the host argument are the
same session value, with identical identifier, hostmask, construction
output and command handling. -/
theorem host_argument_ignored (env : ServerEnv)
    (nick username real_name hostA hostB : String) (conn : Connection) :
    userInit env nick username real_name hostA conn =
      userInit env nick username real_name hostB conn ∧
    (mkUser nick username real_name hostA conn).identifier =
      (mkUser nick username real_name hostB conn).identifier ∧
    (mkUser nick username real_name hostA conn).hostmask =
      (mkUser nick username real_name hostB conn).hostmask ∧
    (∀ msg, handle_cmd env (mkUser nick username real_name hostA conn) msg =
      handle_cmd env (mkUser nick username real_name hostB conn) msg) ∧
    (mkUser nick username real_name hostA conn).host = conn.address.1 :=
  ⟨rfl, rfl, rfl, fun _ => rfl, rfl⟩

end Pyircd
